import Mathlib

/-!
# Verification of the Agentic-AI permission-gated system-operation broker

Shallow embedding of the permission manager (`src/utils/permission_manager.py`)
and the system-operation manager (`src/core/system_operations.py`), together
with theorems settling the spec claims about them.

Modelling conventions:
* Wall-clock instants (`datetime.now()`) are `Nat` parameters threaded into
  every call that reads the clock.
* A canonicalized absolute path (`Path(p).resolve()`) is a `List String` of
  its name components (POSIX style); `render` recovers the `str(Path)` form
  used by the source's string-prefix comparisons.
* Python `dict`s are insertion-ordered association lists (`assocGet`,
  `assocSet`); Python `set`s of operations are lists compared by membership.
* Disk persistence (`_load_permissions`/`_save_permissions`), logging and the
  Tk dialog plumbing are pure I/O and are not part of any claim; they are
  omitted.  The yes/no answers of the dialogs are modelled as injected
  callbacks, exactly as the source treats `ui_callback`.
-/

namespace AgenticAI

/-- The four file-system operations accepted by the permission manager. -/
inductive Op : Type
  | read
  | write
  | execute
  | delete
deriving DecidableEq, Repr

/-- A resolved absolute path, as its list of name components.
`[]` is the filesystem root. -/
abbrev RPath := List String

/-- `str(Path(...))` of a resolved POSIX path: `"/"` for the root,
`"/a/b"` for `["a","b"]`.  Used to mirror the source's
`str(path_obj).startswith(str(base))` comparisons. -/
def render (p : RPath) : String :=
  "/" ++ String.intercalate "/" p

/-- Python `str.startswith(pre)`: character-list prefix test. -/
def startswith (pre s : String) : Bool :=
  pre.toList.isPrefixOf s.toList

/-- Association-list read, modelling Python `d[k]` / `k in d`: the value at
the first matching key. -/
def assocGet {α β : Type} [DecidableEq α] : List (α × β) → α → Option β
  | [], _ => none
  | e :: t, k => if e.1 = k then some e.2 else assocGet t k

/-- Association-list write, modelling Python `d[k] = v`: replaces the mapping
in place when the key is present, otherwise appends (insertion order). -/
def assocSet {α β : Type} [DecidableEq α] : List (α × β) → α → β → List (α × β)
  | [], k, b => [(k, b)]
  | e :: t, k, b => if e.1 = k then (k, b) :: t else e :: assocSet t k b

/-- `PermissionRecord` (permission_manager.py, lines 23–77).
`operations` is Python's `set` of operation strings, held as a list compared
by membership. -/
structure PermissionRecord : Type where
  path : RPath
  operations : List Op
  granted_by : String
  granted_at : Nat
  expires_at : Option Nat
deriving DecidableEq, Repr

/-- `PermissionRecord.is_valid` (lines 46–50): permanent records are always
valid; a dated record is valid strictly before its expiry instant. -/
def PermissionRecord.is_valid (r : PermissionRecord) (now : Nat) : Bool :=
  match r.expires_at with
  | none => true
  | some e => decide (now < e)

/-- `PermissionRecord.allows` (lines 52–54). -/
def PermissionRecord.allows (r : PermissionRecord) (op : Op) (now : Nat) : Bool :=
  decide (op ∈ r.operations) && r.is_valid now

/-- The state of a `PermissionManager` (lines 80–106).  `config_path` and
`auto_save` only drive disk persistence and are omitted; `ui_callback` is the
injected consent dialog, answering a (path, operation) request. -/
structure PermissionManager : Type where
  workspace_path : Option RPath
  permissions : List (RPath × PermissionRecord)
  ui_callback : Option (RPath → Op → Bool)

/-- The safe subdirectories of the workspace (check_permission, lines 182–187). -/
def safe_dirs : List String := ["logs", "cache", "temp", "output"]

/-- The implicit workspace layer of `check_permission` (lines 174–194):
string-prefix test against the workspace root allows `read`; a further
string-prefix test against each safe subdirectory allows `write`/`delete`
(never `execute`). -/
def checkWorkspace (m : PermissionManager) (p : RPath) (op : Op) : Bool :=
  match m.workspace_path with
  | none => false
  | some w =>
    if startswith (render w) (render p) then
      if op = Op.read then true
      else
        safe_dirs.any (fun d =>
          startswith (render (w ++ [d])) (render p) &&
          decide (op = Op.write ∨ op = Op.delete))
    else false

/-- The proper ancestors of a resolved path, nearest first, ending at the
root — exactly the parents visited by the `while parent != parent.parent`
walk of `check_permission` (lines 201–210). -/
def properAncestors (p : RPath) : List RPath :=
  ((List.range p.length).reverse).map (fun k => p.take k)

/-- `has_permission` (lines 337–357): `check_permission` with the UI callback
temporarily removed, i.e. the pure part of the check — the implicit workspace
layer (lines 174–194), then the exact record (lines 196–199), then each
ancestor directory (lines 201–210). -/
def has_permission (m : PermissionManager) (p : RPath) (op : Op) (now : Nat) : Bool :=
  checkWorkspace m p op ||
  (match assocGet m.permissions p with
   | some r => r.allows op now
   | none => false) ||
  (properAncestors p).any (fun a =>
    match assocGet m.permissions a with
    | some r => r.allows op now
    | none => false)

/-- The record written by `grant_permission` (lines 244–260): an existing
record has the new operations unioned in and its metadata overwritten; a
fresh record is built from the call's arguments. -/
def grantRecord (old : Option PermissionRecord) (p : RPath) (ops : List Op)
    (granted_by : String) (now : Nat) (expires_at : Option Nat) : PermissionRecord :=
  match old with
  | some r =>
    { r with
      operations := r.operations ++ ops.filter (fun o => decide (o ∉ r.operations))
      granted_by := granted_by
      expires_at := expires_at
      granted_at := now }
  | none =>
    { path := p
      operations := ops
      granted_by := granted_by
      granted_at := now
      expires_at := expires_at }

/-- `grant_permission` (lines 221–266).  `duration = none` means a permanent
grant; otherwise the record expires `duration` seconds from `now`. -/
def grant_permission (m : PermissionManager) (p : RPath) (ops : List Op)
    (duration : Option Nat) (granted_by : String) (now : Nat) : PermissionManager :=
  let expires_at := duration.map (fun d => now + d)
  { m with
    permissions :=
      assocSet m.permissions p
        (grantRecord (assocGet m.permissions p) p ops granted_by now expires_at) }

/-- Result of `check_permission`: the decision, the (possibly grown) state,
and whether the UI callback was consulted. -/
structure CheckOutcome : Type where
  granted : Bool
  state : PermissionManager
  prompted : Bool

/-- `check_permission` (lines 159–219): the pure layers of `has_permission`,
then — only on a miss — the UI callback; a positive answer is persisted as a
permanent grant of that single operation (line 216). -/
def check_permission (m : PermissionManager) (p : RPath) (op : Op) (now : Nat) :
    CheckOutcome :=
  if has_permission m p op now then ⟨true, m, false⟩
  else
    match m.ui_callback with
    | some cb =>
      if cb p op then ⟨true, grant_permission m p [op] none "user" now, true⟩
      else ⟨false, m, true⟩
    | none => ⟨false, m, false⟩

/-- `len(path_obj.parts)` of a resolved absolute POSIX path: the root marker
plus one part per name component (request_permission, line 390). -/
def pathParts (p : RPath) : Nat := p.length + 1

/-- `request_permission` (lines 359–395): an existing grant or implicit rule
wins; otherwise the UI callback is consulted and a positive answer stored;
with no callback, only a `read` request on a path of at most two parts is
auto-approved, with a 3600-second grant; everything else is denied. -/
def request_permission (m : PermissionManager) (p : RPath) (op : Op) (now : Nat) :
    Bool × PermissionManager :=
  let c := check_permission m p op now
  if c.granted then (true, c.state)
  else
    match m.ui_callback with
    | some cb =>
      if cb p op then (true, grant_permission c.state p [op] none "user" now)
      else (false, c.state)
    | none =>
      if op = Op.read ∧ pathParts p ≤ 2 then
        (true, grant_permission c.state p [Op.read] (some 3600) "user" now)
      else (false, c.state)

/-! ## SystemOperationManager (`src/core/system_operations.py`) -/

/-- Splits a character list on whitespace runs, accumulating the current
token in reverse. -/
def pyTokensAux : List Char → List Char → List String
  | [], acc => if acc.isEmpty then [] else [String.mk acc.reverse]
  | c :: cs, acc =>
    if c.isWhitespace then
      if acc.isEmpty then pyTokensAux cs []
      else String.mk acc.reverse :: pyTokensAux cs []
    else pyTokensAux cs (c :: acc)

/-- Python `str.split()` with no separator: split on whitespace runs,
discarding empty pieces. -/
def pyTokens (s : String) : List String :=
  pyTokensAux s.toList []

/-- Python `str.lower()` (character-wise; adequate for the ASCII command
names compared here). -/
def pyLower (s : String) : String :=
  String.mk (s.toList.map Char.toLower)

/-- The first whitespace token of a command (`command.split()[0]`,
`command.split(None, 1)[0]`); `none` when the command has no token, where
the source's `split()[0]` would raise. -/
def firstTok (s : String) : Option String := (pyTokens s).head?

/-- `self.safe_commands` (system_operations.py, lines 66–69). -/
def safe_commands : List String :=
  ["dir", "ls", "echo", "cd", "pwd", "type", "cat", "more", "date", "time",
   "whoami", "hostname", "ver", "python --version", "pip --version"]

/-- `_is_safe_command` (lines 187–205): the command's lowercased first token
is compared against the lowercased *first token* of each safe-list entry —
so e.g. any command whose first token is `python` matches the entry
`"python --version"`. -/
def is_safe_command (cmd : String) : Bool :=
  match firstTok cmd with
  | none => false
  | some t =>
    safe_commands.any (fun sc =>
      match firstTok sc with
      | some st => pyLower st == pyLower t
      | none => false)

/-- `command_parts[0] if command_parts else command` (lines 288–289): the
executable part of a command used as the permission key. -/
def executableOf (cmd : String) : String := (firstTok cmd).getD cmd

/-- The slice of `SystemOperationManager` state that the permission gate of
`execute_command` reads: the owned `PermissionManager`, the
`Path(...).resolve()` abstraction of the operating system, and the yes/no
answer of the `_permission_request_callback` dialog for a given command. -/
structure ExecState : Type where
  perm : PermissionManager
  resolve : String → RPath
  execConsent : String → Bool

/-- Outcome of the permission gate of `execute_command` (lines 284–296):
whether the permission store was consulted, whether the consent dialog was
shown, the early-return triple when the command was denied, whether control
proceeds to spawn a process, and the permission state afterwards. -/
structure GateResult : Type where
  storeChecked : Bool
  prompted : Bool
  earlyReturn : Option (Int × String × String)
  proceedsToSpawn : Bool
  perm : PermissionManager

/-- The permission gate of `execute_command` (lines 284–296): safe commands
skip everything; otherwise the store is checked for an `execute` grant on the
command's executable token, the consent dialog is shown on a miss, and a
refusal returns `(1, "", "Permission denied")` without spawning; an approval
is persisted as a permanent `execute` grant. -/
def executeGate (s : ExecState) (cmd : String) (now : Nat) : GateResult :=
  if is_safe_command cmd then
    ⟨false, false, none, true, s.perm⟩
  else
    let epath := s.resolve (executableOf cmd)
    if has_permission s.perm epath Op.execute now then
      ⟨true, false, none, true, s.perm⟩
    else if s.execConsent cmd then
      ⟨true, true, none, true,
        grant_permission s.perm epath [Op.execute] none "user" now⟩
    else
      ⟨true, true, some (1, "", "Permission denied"), false, s.perm⟩

/-- One entry of `self.running_processes` (a Python dict whose keys vary by
phase), with absent keys as `none`. -/
structure ProcRecord : Type where
  command : Option String
  cwd : Option String
  returncode : Option Int
  stdout : Option String
  stderr : Option String
  completed : Bool
deriving DecidableEq, Repr

/-- The background-process tracker: the `running_processes` registry keyed by
process id, plus the set of ids whose underlying OS process is currently
alive.  The latter models the operating-system state owned by the detached
worker; the source keeps no handle to it, so `kill_process` cannot touch it. -/
structure Tracker : Type where
  running_processes : List (Nat × ProcRecord)
  osProcessLive : List Nat
deriving DecidableEq, Repr

/-- The background branch of `execute_command` (lines 301–360).  `pid` is
`id(command)` — the CPython object identity of the command string, an input
from the runtime; two launches passing the same string object receive the
same value.  The launch starts the worker (its OS process becomes live),
registers a `completed = false` record under `pid` (overwriting any record
already stored under that key), and returns
`(0, "Command started in background. Process ID: <pid>", "")`. -/
def launch_background (tr : Tracker) (pid : Nat) (command : String) (cwd : String) :
    Tracker × (Int × String × String) :=
  let r0 : ProcRecord :=
    { command := some command, cwd := some cwd, returncode := none,
      stdout := none, stderr := none, completed := false }
  ({ running_processes := assocSet tr.running_processes pid r0,
     osProcessLive :=
       if tr.osProcessLive.contains pid then tr.osProcessLive
       else tr.osProcessLive ++ [pid] },
   (0, "Command started in background. Process ID: " ++ toString pid, ""))

/-- `kill_process` (lines 425–451): unknown id returns `false`; a completed
record returns `true` untouched; a running record is marked
`completed = true`, `returncode = 1`, `stdout = ""`,
`stderr = "Process was killed"`.  The source holds no process handle
("Cannot directly kill a thread in Python"), so the OS-process state is not
consulted or changed. -/
def kill_process (tr : Tracker) (pid : Nat) : Bool × Tracker :=
  match assocGet tr.running_processes pid with
  | none => (false, tr)
  | some r =>
    if r.completed then (true, tr)
    else
      (true,
       { tr with
         running_processes :=
           assocSet tr.running_processes pid
             { r with completed := true, returncode := some 1,
                      stdout := some "", stderr := some "Process was killed" } })

/-- How a call to `elevate_privileges` (lines 207–257) ends: it returns a
boolean, or it relaunches the executable elevated and exits the process
(`sys.exit(0)`, line 251). -/
inductive ElevOutcome : Type
  | returnsTrue
  | returnsFalse
  | relaunchExit
deriving DecidableEq, Repr

/-- Observable behaviour of one `elevate_privileges` call: how it ends,
whether the elevation consent dialog was shown, and whether the relaunch
path (the batch-file `try` block, lines 232–251) was entered. -/
structure ElevResult : Type where
  outcome : ElevOutcome
  prompted : Bool
  relaunchAttempted : Bool
deriving DecidableEq, Repr

/-- `elevate_privileges` (lines 207–257): already elevated returns `true`
at once; off Windows it returns `false` before any prompt; a denied consent
dialog returns `false` without entering the relaunch block; an approved
dialog enters the relaunch block, which exits the process on success
(`relaunchOk = true`) and returns `false` on an exception. -/
def elevate_privileges (isElevated platformWindows elevConsent relaunchOk : Bool) :
    ElevResult :=
  if isElevated then ⟨ElevOutcome.returnsTrue, false, false⟩
  else if platformWindows = false then ⟨ElevOutcome.returnsFalse, false, false⟩
  else if elevConsent = false then ⟨ElevOutcome.returnsFalse, true, false⟩
  else if relaunchOk then ⟨ElevOutcome.relaunchExit, true, true⟩
  else ⟨ElevOutcome.returnsFalse, true, true⟩

/-! ### Registry modification and the single rollback slot -/

/-- The `type` field of `self.last_operation`. -/
inductive OpType : Type
  | noneYet
  | command
  | pythonScript
  | packageInstall
  | registry
deriving DecidableEq, Repr

/-- The `original_state` dict recorded for a registry write
(lines 671–681). -/
structure RegBackup : Type where
  key_path : String
  value_name : String
  value_data : String
  value_type : String
deriving DecidableEq, Repr

/-- `self.last_operation` (lines 75–80): the single rollback slot. -/
structure LastOperation : Type where
  opType : OpType
  original_state : Option RegBackup
  target : Option String
  rollback_possible : Bool
deriving DecidableEq, Repr

/-- The slice of broker state read by `modify_registry` and
`rollback_last_operation`: the platform probe, the consent dialog's answer
per description string, the set of openable registry keys, the registry's
value table keyed by (key path, value name), and the rollback slot. -/
structure BrokerState : Type where
  platformWindows : Bool
  consent : String → Bool
  regKeys : List String
  regValues : List ((String × String) × (String × String))
  lastOperation : LastOperation

/-- Python `s.split(sep, 1)` restricted to the two-piece case: the text
before and after the first occurrence of `sep`, or `none` when `sep` does
not occur. -/
def splitOnce (sep : Char) (s : String) : Option (String × String) :=
  let l := s.toList
  match l.findIdx? (fun a => a = sep) with
  | none => none
  | some i => some (String.mk (l.take i), String.mk (l.drop (i + 1)))

/-- The registry value types accepted by `modify_registry` (lines 625–631). -/
def typeMap : List String :=
  ["REG_SZ", "REG_DWORD", "REG_BINARY", "REG_MULTI_SZ", "REG_EXPAND_SZ"]

/-- The registry hives accepted by `modify_registry` (lines 643–649). -/
def hkeyMap : List String :=
  ["HKEY_CURRENT_USER", "HKEY_LOCAL_MACHINE", "HKEY_CLASSES_ROOT",
   "HKEY_USERS", "HKEY_CURRENT_CONFIG"]

/-- `modify_registry` (lines 600–692): platform, consent, value-type, key
parse and hive checks in source order; then the current value is read and —
only when the read succeeds — recorded into the rollback slot with
`rollback_possible = true`; then the value is written.  A write to a key
that cannot be opened fails after the slot was already updated, exactly as
in the source. -/
def modify_registry (s : BrokerState) (key_path value_name value_data value_type : String) :
    Bool × BrokerState :=
  if s.platformWindows = false then (false, s)
  else if s.consent ("Modify registry key: " ++ key_path ++ "\\" ++ value_name) = false then
    (false, s)
  else if typeMap.contains value_type = false then (false, s)
  else
    match splitOnce '\\' key_path with
    | none => (false, s)
    | some (hive, _sub) =>
      if hkeyMap.contains hive = false then (false, s)
      else
        let backup : Option (String × String) :=
          if s.regKeys.contains key_path then
            assocGet s.regValues (key_path, value_name)
          else none
        let s1 : BrokerState :=
          match backup with
          | some (oldData, oldType) =>
            { s with
              lastOperation :=
                { opType := OpType.registry
                  original_state := some ⟨key_path, value_name, oldData, oldType⟩
                  target := some (key_path ++ "\\" ++ value_name)
                  rollback_possible := true } }
          | none => s
        if s1.regKeys.contains key_path then
          (true,
           { s1 with
             regValues :=
               assocSet s1.regValues (key_path, value_name) (value_data, value_type) })
        else (false, s1)

/-- `rollback_last_operation` (lines 753–777): nothing happens unless the
slot says rollback is possible; a registry slot is undone by re-applying the
backed-up value through `modify_registry`; any other kind returns `false`.
(When the slot claims a registry rollback but holds no backup the source
would raise; that state is unreachable because only a successful backup sets
`rollback_possible`.) -/
def rollback_last_operation (s : BrokerState) : Bool × BrokerState :=
  if s.lastOperation.rollback_possible = false then (false, s)
  else
    match s.lastOperation.opType with
    | OpType.registry =>
      match s.lastOperation.original_state with
      | some b => modify_registry s b.key_path b.value_name b.value_data b.value_type
      | none => (false, s)
    | _ => (false, s)

/-! ## Concrete states used by witnesses and counterexamples -/

/-- A freshly constructed manager: no workspace, no stored grants, no
consent callback. -/
def emptyManager : PermissionManager := ⟨none, [], none⟩

/-- A manager whose workspace root is `/workspace`, with no grants and no
callback. -/
def wsManager : PermissionManager := ⟨some ["workspace"], [], none⟩

/-- A manager holding one time-boxed `read` grant on `/x` (expires at 50). -/
def timeBoxedManager : PermissionManager :=
  ⟨none, [(["x"], ⟨["x"], [Op.read], "user", 0, some 50⟩)], none⟩

/-- An executor state over a fresh permission manager whose consent dialog
always answers no, with the resolver mapping a token to a one-component
path. -/
def denyAllExec : ExecState :=
  ⟨emptyManager, fun s => [s], fun _ => false⟩

/-- A tracker holding one running background process (id 1) whose underlying
OS process is alive. -/
def oneRunningTracker : Tracker :=
  ⟨[(1, ⟨some "sleep 100", some "/ws", none, none, none, false⟩)], [1]⟩

/-- A broker on Windows, consent always granted, just after
`modify_registry("HKEY_CURRENT_USER\\Software\\T", "V", "B", "REG_SZ")`
replaced the prior value `"A"`: the registry holds `"B"` and the rollback
slot holds the backup of `"A"`. -/
def afterRegistryWrite : BrokerState :=
  { platformWindows := true
    consent := fun _ => true
    regKeys := ["HKEY_CURRENT_USER\\Software\\T"]
    regValues := [(("HKEY_CURRENT_USER\\Software\\T", "V"), ("B", "REG_SZ"))]
    lastOperation :=
      ⟨OpType.registry, some ⟨"HKEY_CURRENT_USER\\Software\\T", "V", "A", "REG_SZ"⟩,
       some "HKEY_CURRENT_USER\\Software\\T\\V", true⟩ }

/-! ## Helper lemmas -/

theorem assocGet_set_self {α β : Type} [DecidableEq α] (l : List (α × β)) (k : α) (b : β) :
    assocGet (assocSet l k b) k = some b := by
  induction l with
  | nil => simp [assocSet, assocGet]
  | cons e t ih =>
    by_cases h : e.1 = k
    · simp [assocSet, assocGet, h]
    · simp [assocSet, assocGet, h, ih]

theorem assocGet_set_ne {α β : Type} [DecidableEq α] (l : List (α × β)) (k k' : α) (b : β)
    (h : k' ≠ k) : assocGet (assocSet l k b) k' = assocGet l k' := by
  have hk : (k = k') = False := eq_false (fun hk => h hk.symm)
  have hk' : (k' = k) = False := eq_false h
  induction l with
  | nil => simp [assocSet, assocGet, hk]
  | cons e t ih =>
    by_cases he : e.1 = k
    · simp [assocSet, assocGet, he, hk]
    · by_cases he' : e.1 = k'
      · simp [assocSet, assocGet, he, he', hk']
      · simp [assocSet, assocGet, he, he', ih]

theorem assocGet_mem {α β : Type} [DecidableEq α] {l : List (α × β)} {k : α} {b : β}
    (h : assocGet l k = some b) : (k, b) ∈ l := by
  induction l with
  | nil => simp [assocGet] at h
  | cons e t ih =>
    by_cases he : e.1 = k
    · simp [assocGet, he] at h
      subst he
      simp [← h]
    · simp [assocGet, he] at h
      exact List.mem_cons_of_mem _ (ih h)

theorem length_of_mem_properAncestors {a p : RPath} (h : a ∈ properAncestors p) :
    a.length < p.length := by
  simp only [properAncestors, List.mem_map, List.mem_reverse, List.mem_range] at h
  obtain ⟨k, hk, rfl⟩ := h
  simpa [List.length_take] using hk

theorem mem_properAncestors_append {D suffix : RPath} (h : suffix ≠ []) :
    D ∈ properAncestors (D ++ suffix) := by
  simp only [properAncestors, List.mem_map, List.mem_reverse, List.mem_range]
  refine ⟨D.length, ?_, ?_⟩
  · have : 0 < suffix.length := List.length_pos.mpr h
    simp only [List.length_append]
    omega
  · exact List.take_left D suffix

theorem grantRecord_expires (old : Option PermissionRecord) (p : RPath) (ops : List Op)
    (gb : String) (t : Nat) (e : Option Nat) :
    (grantRecord old p ops gb t e).expires_at = e := by
  cases old <;> rfl

theorem grantRecord_granted_by (old : Option PermissionRecord) (p : RPath) (ops : List Op)
    (gb : String) (t : Nat) (e : Option Nat) :
    (grantRecord old p ops gb t e).granted_by = gb := by
  cases old <;> rfl

theorem grantRecord_granted_at (old : Option PermissionRecord) (p : RPath) (ops : List Op)
    (gb : String) (t : Nat) (e : Option Nat) :
    (grantRecord old p ops gb t e).granted_at = t := by
  cases old <;> rfl

theorem mem_grantRecord_of_mem (old : Option PermissionRecord) (p : RPath) (ops : List Op)
    (gb : String) (t : Nat) (e : Option Nat) {o : Op} (h : o ∈ ops) :
    o ∈ (grantRecord old p ops gb t e).operations := by
  cases old with
  | none => exact h
  | some r =>
    simp only [grantRecord, List.mem_append, List.mem_filter]
    by_cases hr : o ∈ r.operations
    · exact Or.inl hr
    · exact Or.inr ⟨h, by simpa using hr⟩

theorem grantRecord_some_mem_iff (r : PermissionRecord) (p : RPath) (ops : List Op)
    (gb : String) (t : Nat) (e : Option Nat) (o : Op) :
    o ∈ (grantRecord (some r) p ops gb t e).operations ↔ o ∈ r.operations ∨ o ∈ ops := by
  simp only [grantRecord, List.mem_append, List.mem_filter, decide_eq_true_eq]
  constructor
  · rintro (h | ⟨h, _⟩)
    · exact Or.inl h
    · exact Or.inr h
  · rintro (h | h)
    · exact Or.inl h
    · by_cases hr : o ∈ r.operations
      · exact Or.inl hr
      · exact Or.inr ⟨h, hr⟩

/-! ## Claim theorems -/

/-- **C1.** After `grant_permission(P, [O])` with duration `d` at time `t` on
a fresh manager, `check_permission(P, O)` is true at every instant strictly
before the expiry `t + d`, and false at every instant from the expiry on
(there is no consent callback, no ancestor grant and no workspace rule in
that state); moreover, in any manager state with no consent callback, if the
implicit workspace layer does not cover the request and every stored record
is expired, `check_permission` returns false — an expired record never
yields a positive check. -/
theorem c1_grant_check_until_expiry (p : RPath) (op : Op) (d t : Nat) :
    (∀ t', t' < t + d →
      (check_permission (grant_permission emptyManager p [op] (some d) "user" t) p op
        t').granted = true) ∧
    (∀ t', t + d ≤ t' →
      (check_permission (grant_permission emptyManager p [op] (some d) "user" t) p op
        t').granted = false) ∧
    (∀ (m : PermissionManager) (q : RPath) (o : Op) (t' : Nat),
      m.ui_callback = none → checkWorkspace m q o = false →
      (∀ a r, assocGet m.permissions a = some r → r.is_valid t' = false) →
      (check_permission m q o t').granted = false) := by
  have hgen : ∀ (m : PermissionManager) (q : RPath) (o : Op) (t' : Nat),
      m.ui_callback = none → checkWorkspace m q o = false →
      (∀ a r, assocGet m.permissions a = some r → r.is_valid t' = false) →
      (check_permission m q o t').granted = false := by
    intro m q o t' hcb hws hexp
    have hhp : has_permission m q o t' = false := by
      unfold has_permission
      rw [hws]
      simp only [Bool.false_or, Bool.or_eq_false_iff]
      constructor
      · cases h : assocGet m.permissions q with
        | none => rfl
        | some r => simp [PermissionRecord.allows, hexp q r h]
      · rw [List.any_eq_false]
        intro a ha
        cases h : assocGet m.permissions a with
        | none => simp
        | some r => simp [PermissionRecord.allows, hexp a r h]
    simp [check_permission, hhp, hcb]
  have hm : grant_permission emptyManager p [op] (some d) "user" t =
      ⟨none, [(p, ⟨p, [op], "user", t, some (t + d)⟩)], none⟩ := rfl
  refine ⟨?_, ?_, hgen⟩
  · intro t' ht'
    rw [hm]
    simp [check_permission, has_permission, checkWorkspace, assocGet,
      PermissionRecord.allows, PermissionRecord.is_valid, ht']
  · intro t' ht'
    rw [hm]
    apply hgen
    · rfl
    · rfl
    · intro a r h
      by_cases hpa : p = a
      · subst hpa
        simp only [assocGet, if_pos rfl] at h
        cases h
        simp [PermissionRecord.is_valid]
        omega
      · simp [assocGet, hpa] at h

/-- **C5.** Granting an operation on a directory `D` (with no expiry) makes
`check_permission` succeed on every descendant path `D ++ suffix`, in any
prior manager state: the check walks from the exact path through every
ancestor up to the root and accepts the first unexpired record allowing the
operation. -/
theorem c5_ancestor_grant_covers_descendants (m : PermissionManager) (D suffix : RPath)
    (op : Op) (t t' : Nat) :
    (check_permission (grant_permission m D [op] none "user" t) (D ++ suffix) op
      t').granted = true := by
  have hget : assocGet (grant_permission m D [op] none "user" t).permissions D =
      some (grantRecord (assocGet m.permissions D) D [op] "user" t none) := by
    simp [grant_permission, assocGet_set_self]
  have hallow :
      (grantRecord (assocGet m.permissions D) D [op] "user" t none).allows op t' = true := by
    have h1 : op ∈ (grantRecord (assocGet m.permissions D) D [op] "user" t none).operations :=
      mem_grantRecord_of_mem _ _ _ _ _ _ (by simp)
    have h2 := grantRecord_expires (assocGet m.permissions D) D [op] "user" t none
    simp [PermissionRecord.allows, PermissionRecord.is_valid, h1, h2]
  have hhp : has_permission (grant_permission m D [op] none "user" t) (D ++ suffix) op
      t' = true := by
    unfold has_permission
    rcases eq_or_ne suffix [] with hsuf | hsuf
    · subst hsuf
      rw [List.append_nil, hget]
      simp [hallow]
    · rw [Bool.or_eq_true, Bool.or_eq_true]
      refine Or.inr (List.any_eq_true.mpr ⟨D, mem_properAncestors_append hsuf, ?_⟩)
      rw [hget]
      simpa using hallow
  simp [check_permission, hhp]

/-- **C9.** When a record already exists for a path, `grant_permission`
unions the new operations into its operation set (removing none), and
overwrites its expiry, grantor and grant time with the new call's values —
so a later grant with no duration makes a previously time-boxed record
permanent (`expires_at = none`). -/
theorem c9_grant_merges_and_overwrites (m : PermissionManager) (p : RPath)
    (r : PermissionRecord) (ops : List Op) (duration : Option Nat) (gb : String) (t : Nat)
    (h : assocGet m.permissions p = some r) :
    ∃ r', assocGet (grant_permission m p ops duration gb t).permissions p = some r' ∧
      (∀ o, o ∈ r'.operations ↔ o ∈ r.operations ∨ o ∈ ops) ∧
      r'.expires_at = duration.map (fun dd => t + dd) ∧
      r'.granted_by = gb ∧ r'.granted_at = t := by
  refine ⟨grantRecord (some r) p ops gb t (duration.map (fun dd => t + dd)),
    ?_, ?_, ?_, ?_, ?_⟩
  · simp [grant_permission, h, assocGet_set_self]
  · intro o
    exact grantRecord_some_mem_iff r p ops gb t _ o
  · exact grantRecord_expires _ _ _ _ _ _
  · exact grantRecord_granted_by _ _ _ _ _ _
  · exact grantRecord_granted_at _ _ _ _ _ _

/-- **C6.** With no consent callback configured and no existing grant or
implicit rule covering the request, `request_permission` fails closed, with
one exception: a `read` request on a path of at most two parts is
auto-approved, records a `read` grant expiring 3600 seconds later, and
returns true; every other request returns false and leaves the state
unchanged. -/
theorem c6_request_fail_closed (m : PermissionManager) (p : RPath) (op : Op) (t : Nat)
    (hcb : m.ui_callback = none)
    (hchk : (check_permission m p op t).granted = false) :
    ((op = Op.read ∧ pathParts p ≤ 2) →
      (request_permission m p op t).1 = true ∧
      ∃ r', assocGet (request_permission m p op t).2.permissions p = some r' ∧
        Op.read ∈ r'.operations ∧ r'.expires_at = some (t + 3600)) ∧
    (¬ (op = Op.read ∧ pathParts p ≤ 2) →
      request_permission m p op t = (false, m)) := by
  have hhp : has_permission m p op t = false := by
    cases h : has_permission m p op t
    · rfl
    · simp [check_permission, h] at hchk
  have hc : check_permission m p op t = ⟨false, m, false⟩ := by
    simp [check_permission, hhp, hcb]
  constructor
  · rintro ⟨hop, hparts⟩
    subst hop
    have hreq : request_permission m p Op.read t =
        (true, grant_permission m p [Op.read] (some 3600) "user" t) := by
      simp [request_permission, hc, hcb, hparts]
    refine ⟨by rw [hreq],
      grantRecord (assocGet m.permissions p) p [Op.read] "user" t (some (t + 3600)),
      ?_, ?_, ?_⟩
    · rw [hreq]
      simp [grant_permission, assocGet_set_self]
    · exact mem_grantRecord_of_mem _ _ _ _ _ _ (by simp)
    · exact grantRecord_expires _ _ _ _ _ _
  · intro hnot
    simp [request_permission, hc, hcb, hnot]

/-- **C10.** The workspace membership test of `check_permission` is a
string-prefix comparison on resolved path strings: every path whose rendered
form extends the workspace root's string — including the non-descendant
sibling `/workspace2/f` of root `/workspace` — passes a `read` check with no
stored grant and no consent prompt; the same prefix test against
`logs/ cache/ temp/ output/` governs the implicit `write`/`delete`
allowance; `execute` is never implicitly allowed. -/
theorem c10_workspace_prefix_rules (m : PermissionManager) (w p : RPath) (op : Op) (t : Nat)
    (hw : m.workspace_path = some w) :
    (startswith (render w) (render p) = true →
      (check_permission m p Op.read t).granted = true ∧
      (check_permission m p Op.read t).state = m ∧
      (check_permission m p Op.read t).prompted = false) ∧
    (startswith (render w) (render p) = true →
      (op = Op.write ∨ op = Op.delete) →
      safe_dirs.any (fun sd => startswith (render (w ++ [sd])) (render p)) = true →
      (check_permission m p op t).granted = true ∧
      (check_permission m p op t).state = m ∧
      (check_permission m p op t).prompted = false) ∧
    (m.permissions = [] → m.ui_callback = none →
      (check_permission m p Op.execute t).granted = false) ∧
    (check_permission wsManager ["workspace2", "f"] Op.read 0).granted = true := by
  refine ⟨?_, ?_, ?_, by decide⟩
  · intro hpre
    have hws : checkWorkspace m p Op.read = true := by
      simp [checkWorkspace, hw, hpre]
    have hhp : has_permission m p Op.read t = true := by
      simp [has_permission, hws]
    simp [check_permission, hhp]
  · intro hpre hop hany
    obtain ⟨sd, hdmem, hdpre⟩ := List.any_eq_true.mp hany
    have hopr : (op = Op.read) = False := by
      rcases hop with h | h <;> subst h <;> simp
    have hws : checkWorkspace m p op = true := by
      simp only [checkWorkspace, hw, hpre, if_true, hopr, if_false]
      exact List.any_eq_true.mpr ⟨sd, hdmem, by simp [hdpre, hop]⟩
    have hhp : has_permission m p op t = true := by
      simp [has_permission, hws]
    simp [check_permission, hhp]
  · intro hperm hcb
    have hws : checkWorkspace m p Op.execute = false := by
      simp [checkWorkspace, hw]
    have hhp : has_permission m p Op.execute t = false := by
      simp [has_permission, hws, hperm, assocGet]
    simp [check_permission, hhp, hcb]

/-- **C2.** `execute_command` skips both the permission-store lookup and the
consent prompt exactly when the command's first token matches the safe-command
set; for any other command, when no `execute` grant covers its first token and
consent is refused, the gate returns `(1, "", "Permission denied")` and does
not proceed to spawn a process. -/
theorem c2_execute_gate (s : ExecState) (cmd : String) (now : Nat)
    (htok : (firstTok cmd).isSome = true) :
    (((executeGate s cmd now).storeChecked = false ∧
      (executeGate s cmd now).prompted = false) ↔ is_safe_command cmd = true) ∧
    (is_safe_command cmd = false →
      has_permission s.perm (s.resolve (executableOf cmd)) Op.execute now = false →
      s.execConsent cmd = false →
      (executeGate s cmd now).earlyReturn = some (1, "", "Permission denied") ∧
      (executeGate s cmd now).proceedsToSpawn = false) := by
  have hstore : is_safe_command cmd = false →
      (executeGate s cmd now).storeChecked = true := by
    intro hsafe
    simp only [executeGate, hsafe, Bool.false_eq_true, if_false]
    split
    · rfl
    · split <;> rfl
  constructor
  · constructor
    · rintro ⟨h1, _⟩
      cases hsafe : is_safe_command cmd
      · rw [hstore hsafe] at h1
        exact absurd h1 (by simp)
      · rfl
    · intro hsafe
      simp [executeGate, hsafe]
  · intro hsafe hperm hcons
    simp [executeGate, hsafe, hperm, hcons]

/-- **C7.** `elevate_privileges` returns true with no prompt and no relaunch
when the process is already elevated; when not elevated on Windows and the
elevation prompt is answered no, it returns false without entering the
relaunch path; on any platform other than Windows it returns false when not
elevated. -/
theorem c7_elevate_privileges (e w c r : Bool) :
    (e = true →
      elevate_privileges e w c r = ⟨ElevOutcome.returnsTrue, false, false⟩) ∧
    (e = false → w = true → c = false →
      elevate_privileges e w c r = ⟨ElevOutcome.returnsFalse, true, false⟩) ∧
    (e = false → w = false →
      elevate_privileges e w c r = ⟨ElevOutcome.returnsFalse, false, false⟩) := by
  refine ⟨?_, ?_, ?_⟩
  · intro he
    simp [elevate_privileges, he]
  · intro he hw hc
    simp [elevate_privileges, he, hw, hc]
  · intro he hw
    simp [elevate_privileges, he, hw]

/-- **C3 (counterexample).** The claim that `kill_process` on a running id
terminates the underlying OS process is false: the source only flips record
fields ("Cannot directly kill a thread in Python") and holds no process
handle, so after a successful kill the underlying OS process is still
alive. -/
theorem c3_kill_counterexample :
    ¬ (∀ (tr : Tracker) (pid : Nat) (r : ProcRecord),
        assocGet tr.running_processes pid = some r → r.completed = false →
        (kill_process tr pid).2.osProcessLive.contains pid = false) := by
  intro h
  exact absurd (h oneRunningTracker 1 ⟨some "sleep 100", some "/ws", none, none, none, false⟩
    rfl rfl) (by decide)

/-- **C3 (amended).** `kill_process` on an unknown id returns false; on an
already-terminal id it returns true leaving the record (hence its exit code
and stderr) unchanged; on a running id it returns true and marks the record
completed with `returncode = 1`, `stdout = ""`,
`stderr = "Process was killed"` — but this is a logical flag only: the
underlying OS-process state is untouched. -/
theorem c3_kill_marks_record_only (tr : Tracker) (pid : Nat) :
    (assocGet tr.running_processes pid = none → kill_process tr pid = (false, tr)) ∧
    (∀ r, assocGet tr.running_processes pid = some r → r.completed = true →
      kill_process tr pid = (true, tr)) ∧
    (∀ r, assocGet tr.running_processes pid = some r → r.completed = false →
      (kill_process tr pid).1 = true ∧
      assocGet (kill_process tr pid).2.running_processes pid =
        some ⟨r.command, r.cwd, some 1, some "", some "Process was killed", true⟩ ∧
      (kill_process tr pid).2.osProcessLive = tr.osProcessLive) := by
  refine ⟨?_, ?_, ?_⟩
  · intro h
    simp [kill_process, h]
  · intro r h hc
    simp [kill_process, h, hc]
  · intro r h hc
    refine ⟨?_, ?_, ?_⟩ <;> simp [kill_process, h, hc, assocGet_set_self]

/-- Witness for the amended C3 theorem at the concrete one-process tracker. -/
theorem c3_witness :
    (kill_process oneRunningTracker 1).1 = true ∧
    assocGet (kill_process oneRunningTracker 1).2.running_processes 1 =
      some ⟨some "sleep 100", some "/ws", some 1, some "", some "Process was killed", true⟩ ∧
    (kill_process oneRunningTracker 1).2.osProcessLive = oneRunningTracker.osProcessLive :=
  (c3_kill_marks_record_only oneRunningTracker 1).2.2
    ⟨some "sleep 100", some "/ws", none, none, none, false⟩ rfl rfl

/-- **C4 (counterexample).** The claim that a successful registry rollback
clears `rollback_possible` (so that an immediately following rollback returns
false) is false: rolling back re-enters `modify_registry`, which backs up the
value being rolled back and re-arms the slot, so the flag stays true and a
second rollback succeeds again (re-applying the rolled-back value). -/
theorem c4_rollback_counterexample :
    (rollback_last_operation afterRegistryWrite).1 = true ∧
    (rollback_last_operation afterRegistryWrite).2.lastOperation.rollback_possible = true ∧
    (rollback_last_operation (rollback_last_operation afterRegistryWrite).2).1 = true := by
  refine ⟨?_, ?_, ?_⟩ <;> decide

/-- **C4 (amended).** `rollback_last_operation` returns false and leaves the
whole broker state unchanged whenever `rollback_possible` is false; after a
successful rollback of a registry write whose target value is readable, the
slot is overwritten with a backup of the pre-rollback value and
`rollback_possible` remains true (it is not cleared), while the registry
again holds the originally backed-up value. -/
theorem c4_rollback_guard_and_reseed (s : BrokerState) (b : RegBackup) (tgt : Option String)
    (d ty hive sub : String)
    (h1 : s.lastOperation = ⟨OpType.registry, some b, tgt, true⟩)
    (hwin : s.platformWindows = true)
    (hcons : s.consent ("Modify registry key: " ++ b.key_path ++ "\\" ++ b.value_name) = true)
    (hty : typeMap.contains b.value_type = true)
    (hsplit : splitOnce '\\' b.key_path = some (hive, sub))
    (hhive : hkeyMap.contains hive = true)
    (hkey : s.regKeys.contains b.key_path = true)
    (hval : assocGet s.regValues (b.key_path, b.value_name) = some (d, ty)) :
    (∀ s' : BrokerState, s'.lastOperation.rollback_possible = false →
      rollback_last_operation s' = (false, s')) ∧
    ((rollback_last_operation s).1 = true ∧
     (rollback_last_operation s).2.lastOperation =
       ⟨OpType.registry, some ⟨b.key_path, b.value_name, d, ty⟩,
        some (b.key_path ++ "\\" ++ b.value_name), true⟩ ∧
     assocGet (rollback_last_operation s).2.regValues (b.key_path, b.value_name) =
       some (b.value_data, b.value_type)) := by
  constructor
  · intro s' h'
    simp [rollback_last_operation, h']
  · have hroll : rollback_last_operation s =
        modify_registry s b.key_path b.value_name b.value_data b.value_type := by
      simp [rollback_last_operation, h1]
    rw [hroll]
    have hmem : b.key_path ∈ s.regKeys := by simpa using hkey
    simp only [modify_registry, hwin, hcons, hty, hsplit, hhive, hval]
    simp [hmem, assocGet_set_self]

/-- Witness for the amended C4 theorem at the concrete post-write broker. -/
theorem c4_witness :
    (rollback_last_operation afterRegistryWrite).1 = true ∧
    (rollback_last_operation afterRegistryWrite).2.lastOperation =
      ⟨OpType.registry, some ⟨"HKEY_CURRENT_USER\\Software\\T", "V", "B", "REG_SZ"⟩,
       some "HKEY_CURRENT_USER\\Software\\T\\V", true⟩ ∧
    assocGet (rollback_last_operation afterRegistryWrite).2.regValues
      ("HKEY_CURRENT_USER\\Software\\T", "V") = some ("A", "REG_SZ") :=
  (c4_rollback_guard_and_reseed afterRegistryWrite
    ⟨"HKEY_CURRENT_USER\\Software\\T", "V", "A", "REG_SZ"⟩
    (some "HKEY_CURRENT_USER\\Software\\T\\V") "B" "REG_SZ"
    "HKEY_CURRENT_USER" "Software\\T"
    rfl rfl rfl (by decide) (by decide) (by decide) (by decide) rfl).2

/-- **C8 (counterexample).** `process_id = id(command)` is the CPython object
identity of the command string, so two successive background launches passing
the same command string object receive the same id: both calls return the
identical triple (embedding the same id) and the second registration
overwrites the first, leaving a single tracked record. -/
theorem c8_launch_counterexample :
    (launch_background (launch_background (⟨[], []⟩ : Tracker) 5 "python app.py" "/ws").1
        5 "python app.py" "/ws").2 =
      (launch_background (⟨[], []⟩ : Tracker) 5 "python app.py" "/ws").2 ∧
    (launch_background (launch_background (⟨[], []⟩ : Tracker) 5 "python app.py" "/ws").1
        5 "python app.py" "/ws").1.running_processes.length = 1 :=
  ⟨rfl, rfl⟩

/-- **C8 (amended).** A background launch immediately registers a
`completed = false` record carrying the command and working directory under
the id `id(command)` and returns `(0, message embedding that id, "")`;
records under every other id are untouched — but the id is the object
identity of the command string, not a fresh value, so a launch reusing the
same command string object overwrites the earlier launch's record. -/
theorem c8_background_launch_registers (tr : Tracker) (pid : Nat) (cmd cwd : String) :
    assocGet (launch_background tr pid cmd cwd).1.running_processes pid =
      some ⟨some cmd, some cwd, none, none, none, false⟩ ∧
    (launch_background tr pid cmd cwd).2 =
      (0, "Command started in background. Process ID: " ++ toString pid, "") ∧
    (∀ pid', pid' ≠ pid →
      assocGet (launch_background tr pid cmd cwd).1.running_processes pid' =
        assocGet tr.running_processes pid') := by
  refine ⟨?_, rfl, ?_⟩
  · simp [launch_background, assocGet_set_self]
  · intro pid' hne
    simp [launch_background, assocGet_set_ne _ _ _ _ hne]

/-- Witness for the amended C8 theorem at a concrete launch. -/
theorem c8_witness :
    assocGet (launch_background (⟨[], []⟩ : Tracker) 7 "python app.py" "/ws").1.running_processes
      7 = some ⟨some "python app.py", some "/ws", none, none, none, false⟩ ∧
    assocGet (launch_background (⟨[], []⟩ : Tracker) 7 "python app.py" "/ws").1.running_processes
      3 = none := by
  refine ⟨(c8_background_launch_registers (⟨[], []⟩ : Tracker) 7 "python app.py" "/ws").1, ?_⟩
  rw [(c8_background_launch_registers (⟨[], []⟩ : Tracker) 7 "python app.py" "/ws").2.2 3
    (by decide)]
  rfl

/-- Witness for C1 at a concrete 10-second grant made at time 100. -/
theorem c1_witness :
    (check_permission (grant_permission emptyManager ["tmp", "f"] [Op.read] (some 10) "user" 100)
      ["tmp", "f"] Op.read 105).granted = true ∧
    (check_permission (grant_permission emptyManager ["tmp", "f"] [Op.read] (some 10) "user" 100)
      ["tmp", "f"] Op.read 110).granted = false :=
  ⟨(c1_grant_check_until_expiry ["tmp", "f"] Op.read 10 100).1 105 (by decide),
   (c1_grant_check_until_expiry ["tmp", "f"] Op.read 10 100).2.1 110 (by decide)⟩

/-- Witness for C2: a refused unsafe command is denied without a spawn. -/
theorem c2_witness :
    (executeGate denyAllExec "rm -rf /tmp/x" 0).earlyReturn =
      some (1, "", "Permission denied") ∧
    (executeGate denyAllExec "rm -rf /tmp/x" 0).proceedsToSpawn = false :=
  (c2_execute_gate denyAllExec "rm -rf /tmp/x" 0 (by decide)).2 (by decide) (by decide) rfl

/-- Witness for C6: with no callback, a `read` request on the two-part path
`/home` is auto-approved with a one-hour grant. -/
theorem c6_witness :
    (request_permission emptyManager ["home"] Op.read 0).1 = true ∧
    ∃ r', assocGet (request_permission emptyManager ["home"] Op.read 0).2.permissions
        ["home"] = some r' ∧
      Op.read ∈ r'.operations ∧ r'.expires_at = some 3600 :=
  (c6_request_fail_closed emptyManager ["home"] Op.read 0 rfl (by decide)).1
    ⟨rfl, by decide⟩

/-- Witness for C7 at concrete flag combinations. -/
theorem c7_witness :
    elevate_privileges true true true true = ⟨ElevOutcome.returnsTrue, false, false⟩ ∧
    elevate_privileges false true false true = ⟨ElevOutcome.returnsFalse, true, false⟩ ∧
    elevate_privileges false false true true = ⟨ElevOutcome.returnsFalse, false, false⟩ :=
  ⟨(c7_elevate_privileges true true true true).1 rfl,
   (c7_elevate_privileges false true false true).2.1 rfl rfl rfl,
   (c7_elevate_privileges false false true true).2.2 rfl rfl⟩

/-- Witness for C9: a permanent grant of `write` on the time-boxed `/x`
record unions the operations and makes the record permanent. -/
theorem c9_witness :
    ∃ r', assocGet (grant_permission timeBoxedManager ["x"] [Op.write] none "system"
        100).permissions ["x"] = some r' ∧
      (∀ o, o ∈ r'.operations ↔ o ∈ [Op.read] ∨ o ∈ [Op.write]) ∧
      r'.expires_at = none ∧ r'.granted_by = "system" ∧ r'.granted_at = 100 :=
  c9_grant_merges_and_overwrites timeBoxedManager ["x"]
    ⟨["x"], [Op.read], "user", 0, some 50⟩ [Op.write] none "system" 100 rfl

/-- Witness for C10 at `/workspace/logs/a` under workspace `/workspace`. -/
theorem c10_witness :
    (check_permission wsManager ["workspace", "logs", "a"] Op.write 0).granted = true ∧
    (check_permission wsManager ["workspace", "logs", "a"] Op.execute 0).granted = false :=
  ⟨((c10_workspace_prefix_rules wsManager ["workspace"] ["workspace", "logs", "a"] Op.write 0
      rfl).2.1 (by decide) (Or.inl rfl) (by decide)).1,
   (c10_workspace_prefix_rules wsManager ["workspace"] ["workspace", "logs", "a"] Op.write 0
      rfl).2.2.1 rfl rfl⟩

end AgenticAI
